import Mathlib

/-!
# Verification of the Evim Kirada rental-marketplace backend core

Shallow embedding of `src/backend/server.py` (FastAPI handlers over MongoDB
collections).  Collections are lists of documents; `find_one` is `List.find?`
and `update_one` updates the first matching document.  Monetary `float`
fields are embedded as `Rat` (exact arithmetic; every proved equality implies
the spec's "to floating tolerance" reading).  `datetime` values are embedded
as `Nat` timestamps, with "now" passed explicitly.  Password hashing is an
external collaborator and is passed as an abstract function.

A FastAPI `HTTPException` is embedded as `HTTPError`.  Crucially, both
payment handlers wrap their whole body in `try: ... except Exception:`, and
Python's `HTTPException` *is* an `Exception`, so the 404s raised inside the
`try` are swallowed and re-raised as 500 — the embedding keeps that
behaviour (`initialize_payment` / `complete_payment` wrap their `_inner`
bodies).
-/

/-- An embedded FastAPI `HTTPException`: an HTTP status code and a detail
message. -/
structure HTTPError where
  statusCode : Nat
  detail : String
  deriving Repr, DecidableEq

/-- The `db.users` document as stored by `register` (server.py:249-270).
`user.dict()` plus the separately-stored `password_hash`; the `profile`
sub-document is always the default object at registration time and carries
no claim-relevant data, so it is elided. Note the `phone` field of
`UserCreate` is *dropped* by `User(**user_dict)` (the pydantic `User` model
has no top-level `phone` field), so the stored document has none either. -/
structure UserDoc where
  id : String
  email : String
  full_name : String
  role : String
  is_active : Bool := true
  password_hash : String
  created_at : Nat := 0
  updated_at : Nat := 0
  deriving Repr, DecidableEq

/-- The `db.properties` document (pydantic `Property`, server.py:145-166).
`images`/`amenities` are opaque string lists never consulted by the claim
code paths. -/
structure PropertyDoc where
  id : String
  owner_id : String
  title : String := ""
  description : String := ""
  property_type : String := "apartment"
  address : String := ""
  district : String := ""
  city : String := "İstanbul"
  price : Rat
  deposit : Rat := 0
  area : Int := 0
  rooms : String := ""
  floor : Option Int := none
  heating : Option String := none
  furnished : Bool := false
  pets_allowed : Bool := false
  images : List String := []
  amenities : List String := []
  status : String := "draft"
  created_at : Nat := 0
  updated_at : Nat := 0
  deriving Repr, DecidableEq

/-- The `db.applications` document (pydantic `Application`, server.py:193-206).
`payment_completed_at` is not a pydantic field but is `$set` by
`complete_payment`. -/
structure ApplicationDoc where
  id : String
  property_id : String
  tenant_id : String
  owner_id : String
  status : String := "pending"
  message : String := ""
  proposed_rent : Option Rat := none
  move_in_date : Nat := 0
  kyc_score : Option Int := none
  kyc_notes : Option String := none
  admin_notes : Option String := none
  payment_completed_at : Option Nat := none
  created_at : Nat := 0
  updated_at : Nat := 0
  deriving Repr, DecidableEq

/-- The `db.bookings` document. No endpoint in server.py creates bookings; the
fields are those read by `initialize_payment`/`complete_payment`
(server.py:443-453, 535-539) and inserted by the test script
(backend_test.py:324-331).  `proposed_rent = none` models the key being
absent from the Mongo document (so `booking.get('proposed_rent', d)`
falls back to `d`). -/
structure BookingDoc where
  id : String
  property_id : String
  tenant_id : String
  proposed_rent : Option Rat := none
  status : String := "confirmed"
  deriving Repr, DecidableEq

/-- The `db.payments` document as inserted by `initialize_payment`
(server.py:463-475). -/
structure PaymentDoc where
  id : String
  booking_id : String
  user_id : String
  total_amount : Rat
  commission_amount : Rat
  owner_amount : Rat
  commission_rate : Rat
  status : String
  payment_token : String
  created_at : Nat := 0
  updated_at : Nat := 0
  completed_at : Option Nat := none
  deriving Repr, DecidableEq

/-- The whole Mongo database `db` of server.py. -/
structure DB where
  users : List UserDoc := []
  properties : List PropertyDoc := []
  applications : List ApplicationDoc := []
  bookings : List BookingDoc := []
  payments : List PaymentDoc := []
  deriving Repr, DecidableEq

/-- Mongo `update_one`: rewrite the *first* document matching the filter
with `f`; a no-op when nothing matches. -/
def updateFirst (l : List α) (p : α → Bool) (f : α → α) : List α :=
  match l with
  | [] => []
  | x :: xs => if p x then f x :: xs else x :: updateFirst xs p f

/-- Request body of `POST /auth/register` (pydantic `UserCreate`,
server.py:117-122).  `role` is a plain string with default `"tenant"` and
no validation against the role enumeration. -/
structure UserCreate where
  email : String
  password : String
  full_name : String
  role : String := "tenant"
  phone : Option String := none
  deriving Repr, DecidableEq

/-- Handler `register` (server.py:249-270).  `hashFn` is the external
passlib/bcrypt salted-hash collaborator; `newId`/`now` stand for the
uuid4 and clock calls.  Returns the created user document together with
the new database state. -/
def register (db : DB) (user_data : UserCreate) (hashFn : String → String)
    (newId : String) (now : Nat) : Except HTTPError (UserDoc × DB) :=
  if (db.users.find? (fun u => u.email == user_data.email)).isSome then
    .error ⟨400, "Email already registered"⟩
  else if user_data.password.length < 6 then
    .error ⟨400, "Password must be at least 6 characters"⟩
  else
    let user_doc : UserDoc :=
      { id := newId
        email := user_data.email
        full_name := user_data.full_name
        role := user_data.role
        is_active := true
        password_hash := hashFn user_data.password
        created_at := now
        updated_at := now }
    .ok (user_doc, { db with users := db.users ++ [user_doc] })

/-- Query parameters of `GET /properties` (server.py:318-327). -/
structure ListFilters where
  city : Option String := none
  district : Option String := none
  property_type : Option String := none
  min_price : Option Rat := none
  max_price : Option Rat := none
  rooms : Option String := none
  furnished : Option Bool := none
  deriving Repr, DecidableEq

/-- A string query parameter guarded by Python truthiness (`if city:`):
absent or empty means the filter key is not added. -/
def truthyStrFilter (arg : Option String) (field : String) : Bool :=
  match arg with
  | none => true
  | some s => if s.isEmpty then true else field == s

/-- The Mongo filter document built by `list_properties`
(server.py:329-347), as a predicate on a property document.  The
`status: active` key is unconditional; `min_price`/`max_price` both
constrain the `price` key (`$gte`/`$lte`); numeric and boolean
parameters are guarded by `is not None`. -/
def propertyFilter (f : ListFilters) (p : PropertyDoc) : Bool :=
  p.status == "active"
    && truthyStrFilter f.city p.city
    && truthyStrFilter f.district p.district
    && truthyStrFilter f.property_type p.property_type
    && (match f.min_price with | none => true | some m => m ≤ p.price)
    && (match f.max_price with | none => true | some m => p.price ≤ m)
    && truthyStrFilter f.rooms p.rooms
    && (match f.furnished with | none => true | some b => p.furnished == b)

/-- Handler `list_properties` (server.py:317-350): filter, then
`.skip(skip).limit(limit)`. -/
def list_properties (db : DB) (f : ListFilters) (skip : Nat) (limit : Nat) :
    List PropertyDoc :=
  (((db.properties.filter (propertyFilter f)).drop skip).take limit)

/-- Request body of `POST /applications` (pydantic `ApplicationCreate`,
server.py:208-212). -/
structure ApplicationCreate where
  property_id : String
  message : String
  proposed_rent : Option Rat := none
  move_in_date : Nat
  deriving Repr, DecidableEq

/-- Handler `create_application` (server.py:392-420).  The duplicate check
(server.py:406-411) filters on `(property_id, tenant_id)` only — it has
*no* status condition. -/
def create_application (db : DB) (current_user : UserDoc)
    (app_data : ApplicationCreate) (newId : String) (now : Nat) :
    Except HTTPError (ApplicationDoc × DB) :=
  if current_user.role ≠ "tenant" then
    .error ⟨403, "Only tenants can apply"⟩
  else
    match db.properties.find? (fun p => p.id == app_data.property_id) with
    | none => .error ⟨404, "Property not found"⟩
    | some property_doc =>
      if property_doc.status ≠ "active" then
        .error ⟨400, "Property is not available for rent"⟩
      else if (db.applications.find? (fun a =>
          a.property_id == app_data.property_id
            && a.tenant_id == current_user.id)).isSome then
        .error ⟨400, "You have already applied for this property"⟩
      else
        let application : ApplicationDoc :=
          { id := newId
            property_id := app_data.property_id
            tenant_id := current_user.id
            owner_id := property_doc.owner_id
            status := "pending"
            message := app_data.message
            proposed_rent := app_data.proposed_rent
            move_in_date := app_data.move_in_date
            created_at := now
            updated_at := now }
        .ok (application,
          { db with applications := db.applications ++ [application] })

/-- Success payload of `POST /payment/initialize` (server.py:479-491);
the formatted `commission_rate` label and the mock payment URL are string
templating and are elided. -/
structure PaymentInitResp where
  payment_token : String
  total_amount : Rat
  platform_commission : Rat
  owner_amount : Rat
  booking_id : String
  deriving Repr, DecidableEq

/-- Mock token `f"mock_token_{booking_id}_{int(now.timestamp())}"`
(server.py:459). -/
def mkPaymentToken (booking_id : String) (now : Nat) : String :=
  "mock_token_" ++ booking_id ++ "_" ++ toString now

/-- The body of the `try:` block of `initialize_payment`
(server.py:441-491).  `booking.get('proposed_rent', property_doc['price'])`
falls back to the property price only when the key is absent. -/
def initialize_payment_inner (db : DB) (booking_id : String)
    (current_user : UserDoc) (newId : String) (now : Nat) :
    Except HTTPError (PaymentInitResp × DB) :=
  match db.bookings.find? (fun b => b.id == booking_id) with
  | none => .error ⟨404, "Booking not found"⟩
  | some booking =>
    if booking.tenant_id ≠ current_user.id then
      .error ⟨404, "Booking not found"⟩
    else
      match db.properties.find? (fun p => p.id == booking.property_id) with
      | none => .error ⟨404, "Property not found"⟩
      | some property_doc =>
        let total_amount : Rat := booking.proposed_rent.getD property_doc.price
        let commission_rate : Rat := 40
        let commission_amount : Rat := total_amount * (commission_rate / 100)
        let owner_amount : Rat := total_amount - commission_amount
        let payment_token := mkPaymentToken booking_id now
        let payment_data : PaymentDoc :=
          { id := newId
            booking_id := booking_id
            user_id := current_user.id
            total_amount := total_amount
            commission_amount := commission_amount
            owner_amount := owner_amount
            commission_rate := commission_rate
            status := "initialized"
            payment_token := payment_token
            created_at := now
            updated_at := now }
        .ok ({ payment_token := payment_token
               total_amount := total_amount
               platform_commission := commission_amount
               owner_amount := owner_amount
               booking_id := booking_id },
             { db with payments := db.payments ++ [payment_data] })

/-- Handler `initialize_payment` (server.py:434-495).  The whole body sits in
`try: ... except Exception:` and FastAPI's `HTTPException` is an
`Exception`, so *every* raised error — the 404s included — is caught and
replaced by the 500 (server.py:493-495). -/
def initialize_payment (db : DB) (booking_id : String)
    (current_user : UserDoc) (newId : String) (now : Nat) :
    Except HTTPError (PaymentInitResp × DB) :=
  match initialize_payment_inner db booking_id current_user newId now with
  | .error _ => .error ⟨500, "Payment initialization failed"⟩
  | .ok r => .ok r

/-- Payload of `POST /payment/complete` (server.py:542-566): either the
success message with the commission echo, or the failed message. -/
inductive CompleteResp where
  | success (platform_commission owner_payment : Rat)
  | failed
  deriving Repr, DecidableEq

/-- The body of the `try:` block of `complete_payment`
(server.py:503-566).  On `status == "success"` it updates, in order: the
first payment matching the token (status `completed`, `completed_at`),
the first *application* whose `id` equals the payment's `booking_id`
(status `payment_completed`), and — only when a booking with that id is
found — the first property with the booking's `property_id` (status
`rented`).  On any other status it only marks the payment `failed`. -/
def complete_payment_inner (db : DB) (payment_token : String)
    (status : String) (now : Nat) : Except HTTPError (CompleteResp × DB) :=
  match db.payments.find? (fun p => p.payment_token == payment_token) with
  | none => .error ⟨404, "Payment not found"⟩
  | some payment =>
    if status == "success" then
      let payments' := updateFirst db.payments
        (fun p => p.payment_token == payment_token)
        (fun p => { p with status := "completed", completed_at := some now,
                           updated_at := now })
      let applications' := updateFirst db.applications
        (fun a => a.id == payment.booking_id)
        (fun a => { a with status := "payment_completed",
                           payment_completed_at := some now,
                           updated_at := now })
      let properties' :=
        match db.bookings.find? (fun b => b.id == payment.booking_id) with
        | some booking => updateFirst db.properties
            (fun pr => pr.id == booking.property_id)
            (fun pr => { pr with status := "rented", updated_at := now })
        | none => db.properties
      .ok (.success payment.commission_amount payment.owner_amount,
           { db with payments := payments', applications := applications',
                     properties := properties' })
    else
      let payments' := updateFirst db.payments
        (fun p => p.payment_token == payment_token)
        (fun p => { p with status := "failed", updated_at := now })
      .ok (.failed, { db with payments := payments' })

/-- Handler `complete_payment` (server.py:497-570).  As with
`initialize_payment`, the surrounding `except Exception` catches the
`HTTPException(404)` raised inside the `try` and re-raises a 500
(server.py:568-570). -/
def complete_payment (db : DB) (payment_token : String) (status : String)
    (now : Nat) : Except HTTPError (CompleteResp × DB) :=
  match complete_payment_inner db payment_token status now with
  | .error _ => .error ⟨500, "Payment completion failed"⟩
  | .ok r => .ok r

/-- Modelled from the spec: server.py exposes no KYC endpoint (the spec's
`PUT /applications/{id}/kyc` handler is absent from src/; only the
`kyc_score`/`kyc_notes` fields of `Application` exist).  Per spec §4.3:
fails `Forbidden` unless the caller is the tenant who owns the
application; the score comes from an external scoring collaborator whose
contract is a value in [60,95], passed here as the `score` argument; the
resulting status is `approved` if `score ≥ 75` else `rejected`, and
`kyc_score` is persisted. -/
def run_kyc (db : DB) (application_id : String) (current_user : UserDoc)
    (score : Int) (now : Nat) :
    Except HTTPError ((Int × String) × DB) :=
  match db.applications.find? (fun a => a.id == application_id) with
  | none => .error ⟨404, "Application not found"⟩
  | some app =>
    if app.tenant_id ≠ current_user.id then
      .error ⟨403, "Not authorized"⟩
    else
      let newStatus := if 75 ≤ score then "approved" else "rejected"
      let applications' := updateFirst db.applications
        (fun a => a.id == application_id)
        (fun a => { a with status := newStatus, kyc_score := some score,
                           updated_at := now })
      .ok ((score, newStatus), { db with applications := applications' })

/-! ## Concrete fixtures

Mirroring the end-to-end scenario of spec §8 and backend_test.py
(owner, tenant, a property at 8500/month, a booking with
`proposed_rent=8500`, and the payment `initialize_payment` creates for
it).  Used by witnesses and counterexamples. -/

/-- A stand-in for the external salted-hash collaborator in concrete
witnesses. -/
def mockHash (s : String) : String := "bcrypt$salt$" ++ s

def ownerO : UserDoc :=
  { id := "o1", email := "owner@example.com", full_name := "Test Owner",
    role := "owner", password_hash := mockHash "testpass123" }

def tenantT : UserDoc :=
  { id := "t1", email := "tenant@example.com", full_name := "Test Tenant",
    role := "tenant", password_hash := mockHash "testpass123" }

def propP : PropertyDoc :=
  { id := "p1", owner_id := "o1", price := 8500, status := "active" }

def bookingB : BookingDoc :=
  { id := "b1", property_id := "p1", tenant_id := "t1",
    proposed_rent := some 8500 }

/-- An approved application for `propP`, here given the id `"b1"` so
concrete states can be built either way; see `appReal` for the
repository-realizable variant whose id differs from the booking id. -/
def appA : ApplicationDoc :=
  { id := "b1", property_id := "p1", tenant_id := "t1", owner_id := "o1",
    status := "approved" }

/-- The payment row `initialize_payment` inserts for `bookingB` at
timestamp 7: total 8500, commission 3400 (40%), owner amount 5100. -/
def payP : PaymentDoc :=
  { id := "pay1", booking_id := "b1", user_id := "t1",
    total_amount := 8500, commission_amount := 3400, owner_amount := 5100,
    commission_rate := 40, status := "initialized",
    payment_token := mkPaymentToken "b1" 7, created_at := 7, updated_at := 7 }

def dbFull : DB :=
  { users := [ownerO, tenantT], properties := [propP],
    applications := [appA], bookings := [bookingB], payments := [payP] }

/-- The application as the server creates it: its id `"a1"` is the
server-generated uuid of the application document itself.  The repository's
only booking-creation site (backend_test.py:322-343) gives the booking a
*fresh* `uuid.uuid4()` id, so in every repository-realizable state the
booking id (`"b1"`) differs from the application id. -/
def appReal : ApplicationDoc :=
  { id := "a1", property_id := "p1", tenant_id := "t1", owner_id := "o1",
    status := "approved" }

/-- The repository-realizable counterpart of `dbFull`: same owner, tenant,
property, booking and payment, but the application keeps its own id
`"a1"` ≠ booking id `"b1"`. -/
def dbReal : DB :=
  { users := [ownerO, tenantT], properties := [propP],
    applications := [appReal], bookings := [bookingB], payments := [payP] }

/-- A prior application by `tenantT` for `propP` already cancelled. -/
def appCancelled : ApplicationDoc :=
  { id := "a1", property_id := "p1", tenant_id := "t1", owner_id := "o1",
    status := "cancelled" }

def dbCancelled : DB :=
  { users := [ownerO, tenantT], properties := [propP],
    applications := [appCancelled] }

def appReq : ApplicationCreate :=
  { property_id := "p1", message := "Merhaba", move_in_date := 30 }

/-- Bookings present but the referenced property missing. -/
def dbNoProp : DB :=
  { users := [tenantT], bookings := [bookingB] }

/-! ## Helper lemmas: `find?` / `updateFirst` against singleton filters

The spec's uniqueness invariants (unique `payment_token`, unique document
ids) are taken as hypotheses of the form `l.filter p = [x]`; these lemmas
let us reason about the single matching document. -/

theorem filter_singleton_sat {α} (l : List α) (p : α → Bool) (x : α)
    (h : l.filter p = [x]) : p x = true := by
  have hx : x ∈ l.filter p := by
    rw [h]; exact List.mem_singleton_self x
  exact (List.mem_filter.mp hx).2

theorem find?_eq_of_filter_singleton {α} (l : List α) (p : α → Bool) (x : α)
    (h : l.filter p = [x]) : l.find? p = some x := by
  induction l with
  | nil => simp at h
  | cons a t ih =>
    by_cases hpa : p a
    · rw [List.filter_cons_of_pos hpa] at h
      obtain ⟨rfl, -⟩ := List.cons.injEq a (t.filter p) x [] ▸ h
      exact List.find?_cons_of_pos t hpa
    · rw [List.filter_cons_of_neg hpa] at h
      rw [List.find?_cons_of_neg t hpa]
      exact ih h

theorem updateFirst_eq_map_of_filter_singleton {α} (l : List α) (p : α → Bool)
    (f : α → α) (x : α) (h : l.filter p = [x]) :
    updateFirst l p f = l.map (fun y => if p y then f y else y) := by
  induction l with
  | nil => rfl
  | cons a t ih =>
    by_cases hpa : p a
    · rw [List.filter_cons_of_pos hpa] at h
      have ht : t.filter p = [] := (List.cons.injEq a (t.filter p) x []).mp h |>.2
      have hnone : ∀ y ∈ t, ¬ p y = true := by
        intro y hy hpy
        have : y ∈ t.filter p := List.mem_filter.mpr ⟨hy, hpy⟩
        rw [ht] at this
        exact absurd this (List.not_mem_nil y)
      have hmap : t.map (fun y => if p y then f y else y) = t := by
        have : t.map (fun y => if p y then f y else y) = t.map id := by
          apply List.map_congr_left
          intro y hy
          simp [eq_false_of_ne_true (fun hpy => hnone y hy hpy)]
        rw [this, List.map_id]
      simp [updateFirst, hpa, hmap]
    · rw [List.filter_cons_of_neg hpa] at h
      simp [updateFirst, hpa, ih h]

theorem mem_updateFirst_matching {α} (l : List α) (p : α → Bool)
    (f : α → α) (x y : α) (h : l.filter p = [x])
    (hy : y ∈ updateFirst l p f) (hpy : p y = true) : y = f x := by
  rw [updateFirst_eq_map_of_filter_singleton l p f x h] at hy
  obtain ⟨z, hz, hzy⟩ := List.mem_map.mp hy
  by_cases hpz : p z
  · have hzx : z = x := by
      have : z ∈ l.filter p := List.mem_filter.mpr ⟨hz, hpz⟩
      rw [h] at this
      exact List.mem_singleton.mp this
    rw [← hzy, if_pos hpz, hzx]
  · rw [← hzy] at hpy
    simp [hpz] at hpy

theorem mem_updateFirst_nonmatching {α} (l : List α) (p : α → Bool)
    (f : α → α) (x y : α) (h : l.filter p = [x])
    (hy : y ∈ l) (hpy : p y = false) : y ∈ updateFirst l p f := by
  rw [updateFirst_eq_map_of_filter_singleton l p f x h]
  refine List.mem_map.mpr ⟨y, hy, ?_⟩
  simp [hpy]

/-- Helper: case analysis of `register` — duplicate email, short password,
and the successful insertion with the exact stored document. -/
theorem register_cases (db : DB) (data : UserCreate)
    (hashFn : String → String) (newId : String) (now : Nat) :
    ((∃ u ∈ db.users, u.email = data.email) →
        register db data hashFn newId now =
          .error ⟨400, "Email already registered"⟩) ∧
    ((∀ u ∈ db.users, u.email ≠ data.email) → data.password.length < 6 →
        register db data hashFn newId now =
          .error ⟨400, "Password must be at least 6 characters"⟩) ∧
    ((∀ u ∈ db.users, u.email ≠ data.email) → 6 ≤ data.password.length →
        register db data hashFn newId now =
          .ok ({ id := newId, email := data.email,
                 full_name := data.full_name, role := data.role,
                 is_active := true, password_hash := hashFn data.password,
                 created_at := now, updated_at := now },
               { db with users := db.users ++
                  [{ id := newId, email := data.email,
                     full_name := data.full_name, role := data.role,
                     is_active := true,
                     password_hash := hashFn data.password,
                     created_at := now, updated_at := now }] })) := by
  have hfind : (db.users.find? (fun u => u.email == data.email)).isSome ↔
      ∃ u ∈ db.users, u.email = data.email := by
    rw [List.find?_isSome]
    simp only [beq_iff_eq]
  refine ⟨?_, ?_, ?_⟩
  · intro h
    have hs : (db.users.find? (fun u => u.email == data.email)).isSome :=
      hfind.mpr h
    simp [register, hs]
  · intro hall hlen
    have hn : ¬ (db.users.find? (fun u => u.email == data.email)).isSome := by
      intro hs
      obtain ⟨u, hu, he⟩ := hfind.mp hs
      exact hall u hu he
    simp [register, hn, hlen]
  · intro hall hlen
    have hn : ¬ (db.users.find? (fun u => u.email == data.email)).isSome := by
      intro hs
      obtain ⟨u, hu, he⟩ := hfind.mp hs
      exact hall u hu he
    have hnl : ¬ data.password.length < 6 := Nat.not_lt.mpr hlen
    simp [register, hn, hnl]

/-! ## Claim theorems -/

/-- C9: `register` fails with a `ConflictError` (400, duplicate email) if a
user with the same email already exists, fails with a `ValidationError`
(400, weak password) if the password is shorter than 6 characters, and on
success the stored user document carries only the salted hash
`hashFn password` — the plaintext password occurs in no field of the
inserted document (the record equality exhibits every stored field; the
password enters only through the external hash collaborator). -/
theorem register_conflict_validation_and_hash (db : DB) (data : UserCreate)
    (hashFn : String → String) (newId : String) (now : Nat) :
    ((∃ u ∈ db.users, u.email = data.email) →
        register db data hashFn newId now =
          .error ⟨400, "Email already registered"⟩) ∧
    ((∀ u ∈ db.users, u.email ≠ data.email) → data.password.length < 6 →
        register db data hashFn newId now =
          .error ⟨400, "Password must be at least 6 characters"⟩) ∧
    ((∀ u ∈ db.users, u.email ≠ data.email) → 6 ≤ data.password.length →
        register db data hashFn newId now =
          .ok ({ id := newId, email := data.email,
                 full_name := data.full_name, role := data.role,
                 is_active := true, password_hash := hashFn data.password,
                 created_at := now, updated_at := now },
               { db with users := db.users ++
                  [{ id := newId, email := data.email,
                     full_name := data.full_name, role := data.role,
                     is_active := true,
                     password_hash := hashFn data.password,
                     created_at := now, updated_at := now }] })) :=
  register_cases db data hashFn newId now

/-- C9 witness: against a store holding `ownerO`, re-registering the same
email fails with the duplicate-email conflict. -/
theorem register_conflict_validation_and_hash_witness :
    register { users := [ownerO] }
        { email := "owner@example.com", password := "testpass123",
          full_name := "Again", role := "tenant" } mockHash "u9" 3 =
      .error ⟨400, "Email already registered"⟩ :=
  (register_conflict_validation_and_hash { users := [ownerO] }
      { email := "owner@example.com", password := "testpass123",
        full_name := "Again", role := "tenant" } mockHash "u9" 3).1
    ⟨ownerO, by decide, by decide⟩

/-- C10: `register` performs no validation of the role string — for every
role `r`, a registration with a fresh email and a long-enough password
succeeds and the stored user's role is exactly `r` (`UserCreate.role` is a
plain string, server.py:117-122, copied verbatim into the document). -/
theorem register_role_stored_verbatim (db : DB) (data : UserCreate)
    (hashFn : String → String) (newId : String) (now : Nat)
    (hfresh : ∀ u ∈ db.users, u.email ≠ data.email)
    (hlen : 6 ≤ data.password.length) :
    ∃ doc db', register db data hashFn newId now = .ok (doc, db') ∧
      doc.role = data.role ∧ doc ∈ db'.users := by
  refine ⟨_, _, (register_cases db data hashFn newId now).2.2 hfresh hlen,
    rfl, ?_⟩
  exact List.mem_append_right _ (List.mem_singleton_self _)

/-- C10 witness: an unauthenticated registration with role `"admin"`
succeeds and stores role `"admin"`. -/
theorem register_role_stored_verbatim_witness :
    ∃ doc db',
      register { users := [ownerO] }
          { email := "evil@example.com", password := "longenough",
            full_name := "Mallory", role := "admin" } mockHash "u10" 4 =
        .ok (doc, db') ∧
      doc.role = "admin" ∧ doc ∈ db'.users :=
  register_role_stored_verbatim { users := [ownerO] }
    { email := "evil@example.com", password := "longenough",
      full_name := "Mallory", role := "admin" } mockHash "u10" 4
    (by decide) (by decide)

/-- C7: for every database, every filter combination and every
skip/limit pagination choice, every property returned by
`list_properties` has status `active` (the `status: active` key of the
Mongo filter is unconditional, server.py:330). -/
theorem list_properties_only_active (db : DB) (f : ListFilters)
    (skip limit : Nat) (p : PropertyDoc)
    (hp : p ∈ list_properties db f skip limit) : p.status = "active" := by
  unfold list_properties at hp
  have h2 : p ∈ db.properties.filter (propertyFilter f) :=
    List.mem_of_mem_drop (List.mem_of_mem_take hp)
  have h3 := (List.mem_filter.mp h2).2
  simp only [propertyFilter, Bool.and_eq_true, beq_iff_eq] at h3
  exact h3.1.1.1.1.1.1.1

/-- C7 witness: with no filters, `propP` is returned from `dbFull` and is
active. -/
theorem list_properties_only_active_witness : propP.status = "active" :=
  list_properties_only_active dbFull {} 0 20 propP (by decide)

/-- C6 counterexample: the duplicate check of `create_application`
(server.py:406-411) has no status condition, so even when the tenant's
prior application for the property is `cancelled` (a terminal
non-approved state), the second application is rejected with the
conflict error — the claim says it should succeed in that case. -/
theorem create_application_cancelled_counterexample :
    appCancelled.status = "cancelled" ∧
    appCancelled ∈ dbCancelled.applications ∧
    appCancelled.property_id = appReq.property_id ∧
    appCancelled.tenant_id = tenantT.id ∧
    create_application dbCancelled tenantT appReq "a2" 31 =
      .error ⟨400, "You have already applied for this property"⟩ := by
  refine ⟨rfl, by decide, rfl, rfl, ?_⟩
  rfl

/-- C6 amended: the second `createApplication` call by the same tenant for
the same property fails with the `ConflictError` whenever *any* prior
application row for the pair exists, regardless of its status — including
the terminal states `cancelled` and `rejected`. -/
theorem create_application_duplicate_always_conflicts (db : DB)
    (current_user : UserDoc) (app_data : ApplicationCreate)
    (newId : String) (now : Nat) (prior : ApplicationDoc)
    (hrole : current_user.role = "tenant")
    (hprior : prior ∈ db.applications)
    (hpid : prior.property_id = app_data.property_id)
    (htid : prior.tenant_id = current_user.id)
    (hprop : ∃ prop, db.properties.find?
        (fun p => p.id == app_data.property_id) = some prop ∧
      prop.status = "active") :
    create_application db current_user app_data newId now =
      .error ⟨400, "You have already applied for this property"⟩ := by
  obtain ⟨prop, hfind, hactive⟩ := hprop
  have hdup : (db.applications.find? (fun a =>
      a.property_id == app_data.property_id
        && a.tenant_id == current_user.id)).isSome := by
    rw [List.find?_isSome]
    exact ⟨prior, hprior, by simp [hpid, htid]⟩
  simp [create_application, hrole, hfind, hactive, hdup]

/-- C6 amended witness: the cancelled prior application of `dbCancelled`
still triggers the conflict. -/
theorem create_application_duplicate_always_conflicts_witness :
    create_application dbCancelled tenantT appReq "a2" 31 =
      .error ⟨400, "You have already applied for this property"⟩ :=
  create_application_duplicate_always_conflicts dbCancelled tenantT appReq
    "a2" 31 appCancelled (by decide) (by decide) (by decide) (by decide)
    ⟨propP, by decide, by decide⟩

/-- Helper: the success branch of `complete_payment` as one equation,
given the token lookup and the booking lookup. -/
theorem complete_payment_success_eq (db : DB) (token : String) (now : Nat)
    (payment : PaymentDoc) (booking : BookingDoc)
    (hfind : db.payments.find? (fun p => p.payment_token == token) =
      some payment)
    (hbook : db.bookings.find? (fun b => b.id == payment.booking_id) =
      some booking) :
    complete_payment db token "success" now =
      .ok (.success payment.commission_amount payment.owner_amount,
        { db with
          payments := updateFirst db.payments
            (fun p => p.payment_token == token)
            (fun p => { p with status := "completed",
                               completed_at := some now,
                               updated_at := now }),
          applications := updateFirst db.applications
            (fun a => a.id == payment.booking_id)
            (fun a => { a with status := "payment_completed",
                               payment_completed_at := some now,
                               updated_at := now }),
          properties := updateFirst db.properties
            (fun pr => pr.id == booking.property_id)
            (fun pr => { pr with status := "rented",
                                 updated_at := now }) }) := by
  simp [complete_payment, complete_payment_inner, hfind, hbook]

/-- Helper: the non-success branch of `complete_payment` as one
equation. -/
theorem complete_payment_failure_eq (db : DB) (token status : String)
    (now : Nat) (payment : PaymentDoc)
    (hfind : db.payments.find? (fun p => p.payment_token == token) =
      some payment)
    (hstat : (status == "success") = false) :
    complete_payment db token status now =
      .ok (.failed,
        { db with
          payments := updateFirst db.payments
            (fun p => p.payment_token == token)
            (fun p => { p with status := "failed",
                               updated_at := now }) }) := by
  simp [complete_payment, complete_payment_inner, hfind, hstat]

/-- C3 (code bug): with an unknown token, the `HTTPException(404,
"Payment not found")` raised inside the `try` of `complete_payment` is
swallowed by the `except Exception` handler, so the endpoint answers
500 "Payment completion failed", not the 404 the claim (and
backend_test.py:399-400) expect.  The first conjunct shows the inner
body does raise the 404; the others show the observable result is the
500 — for the success status and for any other status alike. -/
theorem complete_payment_unknown_token_returns_500 :
    (dbFull.payments.all
      (fun p => p.payment_token != "unknown_token")) = true ∧
    complete_payment_inner dbFull "unknown_token" "success" 9 =
      .error ⟨404, "Payment not found"⟩ ∧
    complete_payment dbFull "unknown_token" "success" 9 =
      .error ⟨500, "Payment completion failed"⟩ ∧
    complete_payment dbFull "unknown_token" "failed" 9 =
      .error ⟨500, "Payment completion failed"⟩ :=
  ⟨by decide, rfl, rfl, rfl⟩

/-- C4 (code bug): the three NotFound cases of `initialize_payment` —
booking absent, booking owned by a different tenant, referenced property
absent — all raise `HTTPException(404)` inside the `try`, which the
`except Exception` handler converts into 500 "Payment initialization
failed"; the claim (and backend_test.py:378-379) expect the 404. -/
theorem initialize_payment_notfound_returns_500 :
    (initialize_payment_inner dbCancelled "b1" tenantT "pay9" 9 =
        .error ⟨404, "Booking not found"⟩ ∧
      initialize_payment dbCancelled "b1" tenantT "pay9" 9 =
        .error ⟨500, "Payment initialization failed"⟩) ∧
    (initialize_payment_inner dbFull "b1" ownerO "pay9" 9 =
        .error ⟨404, "Booking not found"⟩ ∧
      initialize_payment dbFull "b1" ownerO "pay9" 9 =
        .error ⟨500, "Payment initialization failed"⟩) ∧
    (initialize_payment_inner dbNoProp "b1" tenantT "pay9" 9 =
        .error ⟨404, "Property not found"⟩ ∧
      initialize_payment dbNoProp "b1" tenantT "pay9" 9 =
        .error ⟨500, "Payment initialization failed"⟩) :=
  ⟨⟨rfl, rfl⟩, ⟨rfl, rfl⟩, ⟨rfl, rfl⟩⟩

/-- C1 (code bug): `complete_payment` updates `db.applications` keyed by
the *payment's* `booking_id` (server.py:523-524), but the repository's
only booking-creation site (backend_test.py:322-343) gives the booking a
fresh `uuid.uuid4()` id distinct from the application's own id.  On the
repository-realizable state `dbReal` (application id `"a1"`, booking id
`"b1"`), completing with `"success"` marks the payment completed and the
property rented, yet the `update_one` on applications matches nothing:
the associated application stays `approved` and never becomes
`payment_completed`, contradicting the claim and spec §8's end-to-end
scenario ("A.status becomes payment_completed"). -/
theorem complete_payment_success_skips_application :
    appReal.id ≠ payP.booking_id ∧
    appReal.status = "approved" ∧
    ∃ post : DB,
      complete_payment dbReal (mkPaymentToken "b1" 7) "success" 11 =
        .ok (.success payP.commission_amount payP.owner_amount, post) ∧
      post.applications = dbReal.applications ∧
      (∀ a ∈ post.applications, a.status ≠ "payment_completed") ∧
      (∀ q ∈ post.payments, q.status = "completed" ∧
        q.completed_at = some 11) ∧
      (∀ pr ∈ post.properties, pr.status = "rented") := by
  refine ⟨by decide, rfl, _, rfl, rfl, ?_, ?_, ?_⟩ <;> decide

/-- C5: for the (unique) Payment matching the token, completing with any
status other than `"success"` marks exactly that Payment `failed`
(bumping only its `updated_at`) and leaves users, properties,
applications, bookings and every other payment row untouched. -/
theorem complete_payment_nonsuccess_only_marks_failed (db : DB)
    (token status : String) (now : Nat) (payment : PaymentDoc)
    (hstat : status ≠ "success")
    (hpay : db.payments.filter (fun p => p.payment_token == token) =
      [payment]) :
    ∃ post : DB,
      complete_payment db token status now = .ok (.failed, post) ∧
      post.payments = db.payments.map (fun q =>
        if q.payment_token == token
        then { q with status := "failed", updated_at := now } else q) ∧
      post.applications = db.applications ∧
      post.properties = db.properties ∧
      post.users = db.users ∧
      post.bookings = db.bookings := by
  have hfind := find?_eq_of_filter_singleton _ _ _ hpay
  have hb : (status == "success") = false := by
    simp [hstat]
  refine ⟨_, complete_payment_failure_eq db token status now payment
    hfind hb, ?_, rfl, rfl, rfl, rfl⟩
  exact updateFirst_eq_map_of_filter_singleton _ _ _ _ hpay

/-- C5 witness: failing the §8 scenario's payment with status
`"failed"` touches only that payment row. -/
theorem complete_payment_nonsuccess_only_marks_failed_witness :
    ∃ post : DB,
      complete_payment dbFull (mkPaymentToken "b1" 7) "failed" 11 =
        .ok (.failed, post) ∧
      post.payments = dbFull.payments.map (fun q =>
        if q.payment_token == mkPaymentToken "b1" 7
        then { q with status := "failed", updated_at := 11 } else q) ∧
      post.applications = dbFull.applications ∧
      post.properties = dbFull.properties ∧
      post.users = dbFull.users ∧
      post.bookings = dbFull.bookings :=
  complete_payment_nonsuccess_only_marks_failed dbFull
    (mkPaymentToken "b1" 7) "failed" 11 payP (by decide) (by decide)

/-- C2 counterexample: `commission_rate` is stored as the percentage
`40.0` (server.py:454,470), so for the payment created from the §8
booking (total 8500) the claim's identity
`commission_amount == total_amount * commission_rate` fails:
3400 ≠ 8500 * 40 = 340000. -/
theorem initialize_payment_rate_identity_counterexample :
    ∃ resp db',
      initialize_payment dbFull "b1" tenantT "pay2" 8 = .ok (resp, db') ∧
      ∃ q, db'.payments = dbFull.payments ++ [q] ∧
        q.total_amount = 8500 ∧
        q.commission_amount = 3400 ∧
        q.commission_rate = 40 ∧
        q.commission_amount ≠ q.total_amount * q.commission_rate := by
  refine ⟨_, _, rfl, _, rfl, ?_, ?_, ?_, ?_⟩
  · show bookingB.proposed_rent.getD propP.price = 8500
    norm_num [bookingB, propP]
  · show bookingB.proposed_rent.getD propP.price * (40 / 100) = 3400
    norm_num [bookingB, propP]
  · rfl
  · show bookingB.proposed_rent.getD propP.price * (40 / 100) ≠
      bookingB.proposed_rent.getD propP.price * 40
    norm_num [bookingB, propP]

/-- C2 amended: for every Payment created by `initializePayment`,
`total_amount` is the booking's `proposed_rent` when present else the
property price, `commission_amount = total_amount * 40%`,
`owner_amount = total_amount - commission_amount`, hence
`commission_amount + owner_amount = total_amount` (exactly, so in
particular to floating tolerance), and
`commission_amount = total_amount * (commission_rate / 100)` — the
stored `commission_rate` field being the percentage `40`. -/
theorem initialize_payment_amounts (db : DB) (booking_id : String)
    (current_user : UserDoc) (newId : String) (now : Nat)
    (booking : BookingDoc) (prop : PropertyDoc)
    (hbook : db.bookings.find? (fun b => b.id == booking_id) = some booking)
    (htid : booking.tenant_id = current_user.id)
    (hprop : db.properties.find? (fun p => p.id == booking.property_id) =
      some prop) :
    ∃ resp q,
      initialize_payment db booking_id current_user newId now =
        .ok (resp, { db with payments := db.payments ++ [q] }) ∧
      q.total_amount = booking.proposed_rent.getD prop.price ∧
      q.commission_amount = q.total_amount * (40 / 100 : Rat) ∧
      q.owner_amount = q.total_amount - q.commission_amount ∧
      q.commission_amount + q.owner_amount = q.total_amount ∧
      q.commission_rate = 40 ∧
      q.commission_amount = q.total_amount * (q.commission_rate / 100) ∧
      q.status = "initialized" := by
  refine ⟨{ payment_token := mkPaymentToken booking_id now,
            total_amount := booking.proposed_rent.getD prop.price,
            platform_commission :=
              booking.proposed_rent.getD prop.price * (40 / 100),
            owner_amount := booking.proposed_rent.getD prop.price -
              booking.proposed_rent.getD prop.price * (40 / 100),
            booking_id := booking_id },
          { id := newId, booking_id := booking_id,
            user_id := current_user.id,
            total_amount := booking.proposed_rent.getD prop.price,
            commission_amount :=
              booking.proposed_rent.getD prop.price * (40 / 100),
            owner_amount := booking.proposed_rent.getD prop.price -
              booking.proposed_rent.getD prop.price * (40 / 100),
            commission_rate := 40, status := "initialized",
            payment_token := mkPaymentToken booking_id now,
            created_at := now, updated_at := now },
          ?_, rfl, rfl, rfl, ?_, rfl, rfl, rfl⟩
  · simp [initialize_payment, initialize_payment_inner, hbook, htid, hprop]
  · show booking.proposed_rent.getD prop.price * (40 / 100) +
        (booking.proposed_rent.getD prop.price -
          booking.proposed_rent.getD prop.price * (40 / 100)) =
      booking.proposed_rent.getD prop.price
    ring

/-- C2 amended witness: the §8 scenario — booking at proposed rent 8500
yields total 8500, commission 3400, owner amount 5100. -/
theorem initialize_payment_amounts_witness :
    ∃ resp q,
      initialize_payment dbFull "b1" tenantT "pay2" 8 =
        .ok (resp, { dbFull with payments := dbFull.payments ++ [q] }) ∧
      q.total_amount = bookingB.proposed_rent.getD propP.price ∧
      q.commission_amount = q.total_amount * (40 / 100 : Rat) ∧
      q.owner_amount = q.total_amount - q.commission_amount ∧
      q.commission_amount + q.owner_amount = q.total_amount ∧
      q.commission_rate = 40 ∧
      q.commission_amount = q.total_amount * (q.commission_rate / 100) ∧
      q.status = "initialized" :=
  initialize_payment_amounts dbFull "b1" tenantT "pay2" 8 bookingB propP
    (by decide) (by decide) (by decide)

/-- C8 (spec-modelled): `runKYC` is callable only by the tenant who owns
the application (anyone else gets the 403); given the external scoring
collaborator's contract (a score in [60,95]) it persists the score as
`kyc_score` and sets the application's status to `approved` exactly when
the score is ≥ 75 and to `rejected` otherwise. -/
theorem run_kyc_score_and_status (db : DB) (application_id : String)
    (caller : UserDoc) (score : Int) (now : Nat) (app : ApplicationDoc)
    (happ : db.applications.filter (fun a => a.id == application_id) = [app])
    (hlo : 60 ≤ score) (hhi : score ≤ 95) :
    (app.tenant_id ≠ caller.id →
      run_kyc db application_id caller score now =
        .error ⟨403, "Not authorized"⟩) ∧
    (app.tenant_id = caller.id →
      ∃ st post,
        run_kyc db application_id caller score now =
          .ok ((score, st), post) ∧
        60 ≤ score ∧ score ≤ 95 ∧
        (st = "approved" ↔ 75 ≤ score) ∧
        (st = "rejected" ↔ score < 75) ∧
        (∀ a ∈ post.applications, a.id = application_id →
          a.kyc_score = some score ∧ a.status = st)) := by
  have hfind := find?_eq_of_filter_singleton _ _ _ happ
  constructor
  · intro hne
    simp [run_kyc, hfind, hne]
  · intro heq
    have heqn : run_kyc db application_id caller score now =
        .ok ((score, if 75 ≤ score then "approved" else "rejected"),
          { db with
            applications := updateFirst db.applications
              (fun a => a.id == application_id)
              (fun a => { a with
                status := if 75 ≤ score then "approved" else "rejected",
                kyc_score := some score, updated_at := now }) }) := by
      simp [run_kyc, hfind, heq]
    refine ⟨if 75 ≤ score then "approved" else "rejected", _, heqn,
      hlo, hhi, ?_, ?_, ?_⟩
    · by_cases h : 75 ≤ score <;> simp [h]
    · by_cases h : 75 ≤ score
      · simp [h]
      · simp [h]
        omega
    · intro a ha hai
      have ha' : a = { app with
          status := if 75 ≤ score then "approved" else "rejected",
          kyc_score := some score, updated_at := now } :=
        mem_updateFirst_matching _ _ _ app a happ ha (by simp [hai])
      rw [ha']
      exact ⟨rfl, rfl⟩

/-- C8 witness: running KYC with score 80 on the §8 application approves
it and persists the score. -/
theorem run_kyc_score_and_status_witness :
    (appA.tenant_id ≠ tenantT.id →
      run_kyc dbFull "b1" tenantT 80 12 = .error ⟨403, "Not authorized"⟩) ∧
    (appA.tenant_id = tenantT.id →
      ∃ st post,
        run_kyc dbFull "b1" tenantT 80 12 = .ok ((80, st), post) ∧
        (60 : Int) ≤ 80 ∧ (80 : Int) ≤ 95 ∧
        (st = "approved" ↔ (75 : Int) ≤ 80) ∧
        (st = "rejected" ↔ (80 : Int) < 75) ∧
        (∀ a ∈ post.applications, a.id = "b1" →
          a.kyc_score = some 80 ∧ a.status = st)) :=
  run_kyc_score_and_status dbFull "b1" tenantT 80 12 appA
    (by decide) (by decide) (by decide)
